import Mathlib

/-!
Shallow embedding of `check-secrets.py`, the secret-verification script of
the ai-agent-backend repository.  The script enumerates a fixed list of
secret identifiers, fetches each one from an external secret store, strips
the fetched text, classifies it with a per-identifier validation rule
producing a display message, accumulates found/missing sets, and finally
computes five critical checks and an overall verdict message.

The external fetch (a `gcloud` subprocess) is modelled as a parameter
`fetch : String → Option String`: `some stdout` stands for exit code 0 with
that standard output, `none` for a non-zero exit code or an exception.
-/

namespace CheckSecrets

/-- The fixed list `SECRETS` of check-secrets.py (lines 12-27). -/
def SECRETS : List String :=
  ["anthropic-api-key",
   "claude-api-key",
   "jwt-secret",
   "encryption-key",
   "token-encryption-key",
   "database-url",
   "db-password",
   "google-client-id",
   "google-client-secret",
   "backend-url",
   "frontend-url",
   "app-oauth-redirect-uri",
   "oauth-redirect-uri",
   "mcp-oauth-redirect-uri"]

/-- Whitespace characters removed by Python str.strip (ASCII part: space,
tab, newline, carriage return, vertical tab, form feed; the exotic Unicode
whitespace Python also strips plays no role in this development). -/
def pyIsSpace (c : Char) : Bool :=
  c = ' ' || c = '\t' || c = '\n' || c = '\r' || c = '\x0b' || c = '\x0c'

/-- Python str.strip on a list of characters: drop whitespace from both
ends. -/
def stripChars (l : List Char) : List Char :=
  (((l.dropWhile pyIsSpace).reverse).dropWhile pyIsSpace).reverse

/-- Python value.strip(), as used on the fetched stdout (line 83) and in the
whitespace test (line 85). -/
def pyStrip (s : String) : String :=
  ⟨stripChars s.data⟩

/-- Hex digit as accepted by the character class of the regular expression
on line 114 of the script. -/
def isHexDigitChar (c : Char) : Bool :=
  ('0' ≤ c && c ≤ '9') || ('a' ≤ c && c ≤ 'f') || ('A' ≤ c && c ≤ 'F')

/-- Python re.match of the anchored pattern of 64 hex digits (line 114).
The Python end anchor also matches just before one trailing newline, hence
the second disjunct; under the script's companion test length == 64 it is
inert. -/
def matchesHex64 (s : String) : Bool :=
  (s.data.length == 64 && s.data.all isHexDigitChar) ||
  (s.data.length == 65 && (s.data.take 64).all isHexDigitChar &&
    s.data.getLast? == some '\n')

/-- Value of one base64 alphabet character, none for a character outside the
alphabet. -/
def b64val (c : Char) : Option Nat :=
  if 'A' ≤ c && c ≤ 'Z' then some (c.toNat - 65)
  else if 'a' ≤ c && c ≤ 'z' then some (c.toNat - 71)
  else if '0' ≤ c && c ≤ '9' then some (c.toNat + 4)
  else if c = '+' then some 62
  else if c = '/' then some 63
  else none

/-- State of the CPython a2b_base64 decoding loop (non-strict mode), which
is what base64.b64decode on line 106 of the script runs: position inside
the current quad, the pending bits, the count of padding characters seen in
the current quad, the bytes produced so far, and whether decoding stopped
at complete padding. -/
structure B64State where
  quadPos : Nat
  leftchar : Nat
  pads : Nat
  out : List Nat
  finished : Bool
deriving DecidableEq

/-- One character step of CPython a2b_base64 in non-strict mode: characters
outside the alphabet are skipped, a padding character in a position that
completes a quad ends decoding, and an alphabet character emits a byte in
quad positions 1, 2 and 3. -/
def b64step (st : B64State) (c : Char) : B64State :=
  if st.finished then st
  else if c = '=' then
    if 2 ≤ st.quadPos then
      if 4 ≤ st.quadPos + (st.pads + 1) then { st with finished := true }
      else { st with pads := st.pads + 1 }
    else st
  else
    match b64val c with
    | none => st
    | some v =>
      if st.quadPos = 0 then
        { st with quadPos := 1, leftchar := v, pads := 0 }
      else if st.quadPos = 1 then
        { st with
          quadPos := 2
          leftchar := v % 16
          pads := 0
          out := st.out ++ [st.leftchar * 4 + v / 16] }
      else if st.quadPos = 2 then
        { st with
          quadPos := 3
          leftchar := v % 4
          pads := 0
          out := st.out ++ [st.leftchar * 16 + v / 4] }
      else
        { st with
          quadPos := 0
          leftchar := 0
          pads := 0
          out := st.out ++ [st.leftchar * 64 + v] }

/-- Python base64.b64decode applied to a str (line 106): the string must be
ASCII, every non-alphabet character is discarded, and after the loop a quad
position other than 0 (unless decoding already stopped at full padding) is a
padding error.  `none` stands for the exception caught on line 111. -/
def b64decode (s : String) : Option (List Nat) :=
  if s.data.all (fun c => c.toNat < 128) then
    let st := s.data.foldl b64step ⟨0, 0, 0, [], false⟩
    if st.finished || st.quadPos == 0 then some st.out else none
  else none

/-- Python value.startswith(p): p is a prefix of the character sequence. -/
def pyStartsWith (s p : String) : Bool :=
  p.data.isPrefixOf s.data

/-- Python value.endswith(p): p is a suffix of the character sequence. -/
def pyEndsWith (s p : String) : Bool :=
  p.data.isSuffixOf s.data

/-- The five URL-valued identifiers of line 129. -/
def urlSecrets : List String :=
  ["backend-url", "frontend-url", "app-oauth-redirect-uri",
   "oauth-redirect-uri", "mcp-oauth-redirect-uri"]

/-- The display message computed for a found secret by the dispatch chain of
lines 88-135, as a function of the identifier and of the stripped value. -/
def validateDisplay (secret value : String) : String :=
  let length := value.length
  if secret = "anthropic-api-key" then
    if pyStartsWith value ("sk-ant-") then
      "sk-ant-****... " ++ (toString length ++ " chars OK")
    else "INVALID FORMAT! Should start with \x27sk-ant-\x27"
  else if secret = "claude-api-key" then
    if pyStartsWith value ("sk-ant-") then
      "sk-ant-****... " ++ (toString length ++ " chars OK")
    else "INVALID FORMAT! Should start with \x27sk-ant-\x27"
  else if secret = "jwt-secret" then
    if 32 ≤ length then "****... " ++ (toString length ++ " chars OK")
    else "TOO SHORT! Only " ++ (toString length ++ " chars (need 32+)")
  else if secret = "encryption-key" then
    match b64decode value with
    | some decoded =>
      if decoded.length = 32 then "****... (base64, 32 bytes) OK"
      else "WRONG SIZE! " ++ (toString decoded.length ++ " bytes (need 32)")
    | none => "INVALID BASE64!"
  else if secret = "token-encryption-key" then
    if length == 64 && matchesHex64 value then "****... (64 hex chars) OK"
    else "INVALID! Need 64 hex chars, got " ++ toString length
  else if secret = "google-client-id" then
    if pyEndsWith value (".apps.googleusercontent.com") then
      String.mk (value.data.take (min 20 length)) ++ "... OK"
    else "INVALID FORMAT! Should end with .apps.googleusercontent.com"
  else if secret = "google-client-secret" then
    if pyStartsWith value ("GOCSPX-") then
      "GOCSPX-****... " ++ (toString length ++ " chars OK")
    else "INVALID FORMAT! Should start with \x27GOCSPX-\x27"
  else if urlSecrets.contains secret then
    if pyStartsWith value ("https://") then value ++ " OK"
    else value ++ " WARNING (Should use HTTPS)"
  else "****... " ++ (toString length ++ " chars OK")

/-- The per-identifier record appended to `results` (lines 143-149 on
success, 153-159 on failure). -/
structure SecretResult where
  secret : String
  status : String
  length : Nat
  has_whitespace : Bool
  display : String
deriving DecidableEq

/-- One iteration of the loop over SECRETS (lines 76-160): on fetch success
the stdout is stripped (line 83), its length and whitespace flag are taken
from the stripped value (lines 84-85), and the display message comes from
the dispatch chain; on failure the identifier is recorded Missing with the
fixed message. -/
def processSecret (fetch : String → Option String) (secret : String) :
    SecretResult :=
  match fetch secret with
  | some stdout =>
    let value := pyStrip stdout
    { secret := secret
      status := "Found"
      length := value.length
      has_whitespace := value != pyStrip value
      display := validateDisplay secret value }
  | none =>
    { secret := secret
      status := "Missing"
      length := 0
      has_whitespace := false
      display := "Not found" }

/-- The results list accumulated by the loop: one record per identifier of
SECRETS, in order. -/
def results (fetch : String → Option String) : List SecretResult :=
  SECRETS.map (processSecret fetch)

/-- The found_secrets list (line 142): the identifiers whose fetch
succeeded, in list order. -/
def found_secrets (fetch : String → Option String) : List String :=
  SECRETS.filter (fun s => (fetch s).isSome)

/-- The missing_secrets list (line 152): the identifiers whose fetch failed,
in list order. -/
def missing_secrets (fetch : String → Option String) : List String :=
  SECRETS.filter (fun s => (fetch s).isNone)

/-- Critical check of line 183. -/
def has_anthropic_key (found : List String) : Bool :=
  found.contains ("anthropic-api-key") || found.contains ("claude-api-key")

/-- Critical check of line 184. -/
def has_jwt_secret (found : List String) : Bool :=
  found.contains ("jwt-secret")

/-- Critical check of line 185. -/
def has_database (found : List String) : Bool :=
  found.contains ("database-url") || found.contains ("db-password")

/-- Critical check of line 186. -/
def has_oauth (found : List String) : Bool :=
  found.contains ("google-client-id") && found.contains ("google-client-secret")

/-- Critical check of line 187. -/
def has_urls (found : List String) : Bool :=
  found.contains ("backend-url") && found.contains ("frontend-url")

/-- The condition of the final verdict (line 219): no missing secrets and
all five critical checks true. -/
def verdictPass (fetch : String → Option String) : Bool :=
  (missing_secrets fetch).isEmpty &&
  has_anthropic_key (found_secrets fetch) &&
  has_jwt_secret (found_secrets fetch) &&
  has_database (found_secrets fetch) &&
  has_oauth (found_secrets fetch) &&
  has_urls (found_secrets fetch)

/-- The final verdict line printed by lines 219-224. -/
def finalMessage (fetch : String → Option String) : String :=
  if verdictPass fetch then "OK ALL CRITICAL SECRETS PRESENT!"
  else "WARNING CONFIGURATION INCOMPLETE!"

/-! Helper lemmas. -/

/-- Two strings whose first characters differ are different strings. -/
theorem ne_of_head_chars {a b : String} {c d : Char} {u w : List Char}
    (ha : a.data = c :: u) (hb : b.data = d :: w) (h : c ≠ d) : a ≠ b := by
  intro e
  rw [e, hb] at ha
  injection ha with h1 _
  exact h h1.symm

/-- The first element surviving dropWhile does not satisfy the predicate. -/
theorem dropWhile_head_false {α : Type} (p : α → Bool) :
    ∀ (l : List α) {a : α} {t : List α}, l.dropWhile p = a :: t → p a = false := by
  intro l
  induction l with
  | nil => intro a t h; simp [List.dropWhile] at h
  | cons b u ih =>
    intro a t h
    rw [List.dropWhile_cons] at h
    by_cases hb : p b = true
    · rw [if_pos hb] at h
      exact ih h
    · rw [if_neg hb] at h
      injection h with h1 _
      rw [← h1]
      exact Bool.eq_false_iff.mpr hb

/-- dropWhile is the identity on a list whose head fails the predicate. -/
theorem dropWhile_eq_self_of_head {α : Type} (p : α → Bool) (l : List α)
    (h : ∀ a t, l = a :: t → p a = false) : l.dropWhile p = l := by
  cases l with
  | nil => rfl
  | cons a t =>
    rw [List.dropWhile_cons, h a t rfl]
    simp

/-- Stripping both ends of a character list is idempotent. -/
theorem stripChars_idem (l : List Char) :
    stripChars (stripChars l) = stripChars l := by
  cases hB : (l.dropWhile pyIsSpace).reverse.dropWhile pyIsSpace with
  | nil =>
    simp only [stripChars, hB]
    simp
  | cons b bt =>
    have hbfalse : pyIsSpace b = false := dropWhile_head_false _ _ hB
    have hAne : l.dropWhile pyIsSpace ≠ [] := by
      intro h0
      rw [h0] at hB
      simp [List.dropWhile] at hB
    obtain ⟨a, u, hA⟩ : ∃ a u, l.dropWhile pyIsSpace = a :: u := by
      cases hA0 : l.dropWhile pyIsSpace with
      | nil => exact absurd hA0 hAne
      | cons x xs => exact ⟨x, xs, rfl⟩
    have hafalse : pyIsSpace a = false := dropWhile_head_false _ _ hA
    have hlast : (b :: bt).getLast? = some a := by
      obtain ⟨t, ht⟩ :=
        List.dropWhile_suffix (l := (l.dropWhile pyIsSpace).reverse) pyIsSpace
      rw [hB] at ht
      have hg := List.getLast?_append_of_ne_nil t
        (show (b :: bt : List Char) ≠ [] by simp)
      rw [ht, List.getLast?_reverse, hA] at hg
      simpa using hg.symm
    have h1 : (b :: bt).reverse.dropWhile pyIsSpace = (b :: bt).reverse := by
      apply dropWhile_eq_self_of_head
      intro c t hct
      have hh : (b :: bt).reverse.head? = some c := by
        rw [hct]
        rfl
      rw [List.head?_reverse, hlast] at hh
      injection hh with h'
      rw [← h']
      exact hafalse
    have h2 : (b :: bt).dropWhile pyIsSpace = b :: bt := by
      rw [List.dropWhile_cons, hbfalse]
      simp
    simp only [stripChars, hB]
    rw [h1, List.reverse_reverse, h2]

/-- Python str.strip is idempotent. -/
theorem pyStrip_idem (s : String) : pyStrip (pyStrip s) = pyStrip s := by
  show (⟨stripChars (stripChars s.data)⟩ : String) = ⟨stripChars s.data⟩
  rw [stripChars_idem]

/-- List.contains agrees with membership for strings. -/
theorem contains_iff (l : List String) (a : String) :
    l.contains a = true ↔ a ∈ l := by
  simp [List.contains, List.elem_iff]

/-- The has_whitespace field of every produced record is false: line 85 of
the script compares the stripped value against the stripped value. -/
theorem processSecret_whitespace_false (fetch : String → Option String)
    (s : String) : (processSecret fetch s).has_whitespace = false := by
  unfold processSecret
  cases h : fetch s with
  | none => rfl
  | some stdout =>
    show (pyStrip stdout != pyStrip (pyStrip stdout)) = false
    rw [pyStrip_idem]
    simp

/-- The valid api-key message never equals the invalid-format message,
whatever length is interpolated. -/
theorem skOk_ne_invalid (n : Nat) :
    ("sk-ant-****... " ++ (toString n ++ " chars OK")) ≠
      "INVALID FORMAT! Should start with \x27sk-ant-\x27" :=
  ne_of_head_chars rfl rfl (by decide)

/-- The invalid hex message never equals the valid hex message, whatever
length is interpolated. -/
theorem invalidHex_ne_ok (n : Nat) :
    ("INVALID! Need 64 hex chars, got " ++ toString n) ≠
      "****... (64 hex chars) OK" :=
  ne_of_head_chars rfl rfl (by decide)

/-- The wrong-size base64 message never equals the valid base64 message. -/
theorem wrongSize_ne_ok (n : Nat) :
    ("WRONG SIZE! " ++ (toString n ++ " bytes (need 32)")) ≠
      "****... (base64, 32 bytes) OK" :=
  ne_of_head_chars rfl rfl (by decide)

/-- The wrong-size base64 message never equals the decode-failure
message. -/
theorem wrongSize_ne_invalidB64 (n : Nat) :
    ("WRONG SIZE! " ++ (toString n ++ " bytes (need 32)")) ≠
      "INVALID BASE64!" :=
  ne_of_head_chars rfl rfl (by decide)

/-- A fetch environment in which every identifier of SECRETS is present and
every retrieved value satisfies its format rule. -/
def goodFetch : String → Option String := fun s =>
  if s = "anthropic-api-key" then some ("sk-ant-abc123")
  else if s = "claude-api-key" then some ("sk-ant-abc123")
  else if s = "jwt-secret" then some ("0123456789abcdef0123456789abcdef")
  else if s = "encryption-key" then
    some ("QUFBQUFBQUFBQUFBQUFBQUFBQUFBQUFBQUFBQUFBQUE=")
  else if s = "token-encryption-key" then
    some ("0123456789abcdef0123456789abcdef0123456789abcdef0123456789abcdef")
  else if s = "google-client-id" then some ("x.apps.googleusercontent.com")
  else if s = "google-client-secret" then some ("GOCSPX-abc123")
  else if urlSecrets.contains s then some ("https://example.com")
  else some ("placeholder-value")

/-- Like goodFetch, but the anthropic key comes back in a shape that fails
its format rule; same found/missing pattern. -/
def badFetch : String → Option String := fun s =>
  if s = "anthropic-api-key" then some ("totally-wrong-format")
  else goodFetch s

/-- A fetch environment in which only the jwt-secret fetch fails. -/
def failFetch : String → Option String := fun s =>
  if s = "jwt-secret" then none
  else goodFetch s

/-! The claims. -/

/-- Claim C1: the run prints the pass verdict exactly when the missing list
is empty and all five critical checks (has_anthropic_key, has_jwt_secret,
has_database, has_oauth, has_urls) are true, and in every other case it
prints the configuration-incomplete verdict. -/
theorem final_verdict_iff (fetch : String → Option String) :
    (finalMessage fetch = "OK ALL CRITICAL SECRETS PRESENT!" ↔
      (missing_secrets fetch = [] ∧
       has_anthropic_key (found_secrets fetch) = true ∧
       has_jwt_secret (found_secrets fetch) = true ∧
       has_database (found_secrets fetch) = true ∧
       has_oauth (found_secrets fetch) = true ∧
       has_urls (found_secrets fetch) = true)) ∧
    (¬(missing_secrets fetch = [] ∧
       has_anthropic_key (found_secrets fetch) = true ∧
       has_jwt_secret (found_secrets fetch) = true ∧
       has_database (found_secrets fetch) = true ∧
       has_oauth (found_secrets fetch) = true ∧
       has_urls (found_secrets fetch) = true) →
      finalMessage fetch = "WARNING CONFIGURATION INCOMPLETE!") := by
  have hveq : verdictPass fetch = true ↔
      (missing_secrets fetch = [] ∧
       has_anthropic_key (found_secrets fetch) = true ∧
       has_jwt_secret (found_secrets fetch) = true ∧
       has_database (found_secrets fetch) = true ∧
       has_oauth (found_secrets fetch) = true ∧
       has_urls (found_secrets fetch) = true) := by
    simp [verdictPass, List.isEmpty_iff, and_assoc]
  by_cases h : verdictPass fetch = true
  · have h1 : finalMessage fetch = "OK ALL CRITICAL SECRETS PRESENT!" := by
      rw [finalMessage, if_pos h]
    exact ⟨⟨fun _ => hveq.mp h, fun _ => h1⟩, fun hn => absurd (hveq.mp h) hn⟩
  · have h1 : finalMessage fetch = "WARNING CONFIGURATION INCOMPLETE!" := by
      rw [finalMessage, if_neg h]
    refine ⟨⟨fun he => ?_, fun hr => absurd (hveq.mpr hr) h⟩, fun _ => h1⟩
    rw [h1] at he
    exact absurd he (by decide)

/-- Claim C2: has_database is true exactly when database-url or db-password
is in the found set, and a run with database-url missing but db-password
found has has_database true while the verdict is configuration incomplete,
the missing set being non-empty. -/
theorem has_database_or_semantics (fetch : String → Option String) :
    (has_database (found_secrets fetch) = true ↔
      ("database-url" ∈ found_secrets fetch ∨
       "db-password" ∈ found_secrets fetch)) ∧
    (fetch "database-url" = none → (∃ v, fetch "db-password" = some v) →
      (has_database (found_secrets fetch) = true ∧
       missing_secrets fetch ≠ [] ∧
       finalMessage fetch = "WARNING CONFIGURATION INCOMPLETE!")) := by
  constructor
  · simp [has_database, Bool.or_eq_true, contains_iff]
  · rintro hnone ⟨v, hv⟩
    have hdbp : "db-password" ∈ found_secrets fetch := by
      rw [found_secrets, List.mem_filter]
      exact ⟨by decide, by rw [hv]; rfl⟩
    have hdb : has_database (found_secrets fetch) = true := by
      simp only [has_database, Bool.or_eq_true, contains_iff]
      exact Or.inr hdbp
    have hdbu : "database-url" ∈ missing_secrets fetch := by
      rw [missing_secrets, List.mem_filter]
      exact ⟨by decide, by rw [hnone]; rfl⟩
    have hmne : missing_secrets fetch ≠ [] := by
      intro h0
      rw [h0] at hdbu
      simp at hdbu
    refine ⟨hdb, hmne, ?_⟩
    have hpass : ¬ verdictPass fetch = true := by
      have hie : (missing_secrets fetch).isEmpty = false := by
        cases hm : missing_secrets fetch with
        | nil => exact absurd hm hmne
        | cons x xs => rfl
      simp [verdictPass, hie]
    rw [finalMessage, if_neg hpass]

/-- Claim C3 counterexample: the fixed identifier list has fourteen
entries, not fifteen. -/
theorem secrets_list_not_fifteen : SECRETS.length = 14 ∧ SECRETS.length ≠ 15 := by
  decide

/-- Claim C3 (amended): the fixed list enumerated on every run has fourteen
identifiers, and a run in which every one of them is found yields the pass
verdict. -/
theorem secrets_fourteen_all_found_pass (fetch : String → Option String)
    (h : ∀ s ∈ SECRETS, (fetch s).isSome = true) :
    SECRETS.length = 14 ∧
    finalMessage fetch = "OK ALL CRITICAL SECRETS PRESENT!" := by
  refine ⟨by decide, ?_⟩
  have hfound : found_secrets fetch = SECRETS := List.filter_eq_self.mpr h
  have hmiss : missing_secrets fetch = [] := by
    rw [missing_secrets]
    apply List.filter_eq_nil_iff.mpr
    intro a ha
    obtain ⟨x, hx⟩ := Option.isSome_iff_exists.mp (h a ha)
    rw [hx]
    simp
  have hpass : verdictPass fetch = true := by
    unfold verdictPass
    rw [hfound, hmiss]
    decide
  rw [finalMessage, if_pos hpass]

/-- Claim C3 witness: a concrete all-found, all-format-valid run. -/
theorem secrets_fourteen_witness :
    SECRETS.length = 14 ∧
    finalMessage goodFetch = "OK ALL CRITICAL SECRETS PRESENT!" :=
  secrets_fourteen_all_found_pass goodFetch (by decide)

/-- Claim C4 (code-bug evidence): the script never flags whitespace.  Line
83 strips the fetched stdout and line 85 then compares the stripped value
with itself stripped again, so the recorded has_whitespace flag is false on
every input, in particular on a fetched value with surrounding
whitespace. -/
theorem whitespace_flag_never_set :
    (processSecret (fun _ => some (" my-secret-value ")) ("jwt-secret")).has_whitespace
        = false ∧
    (∀ fetch s, (processSecret fetch s).has_whitespace = false) :=
  ⟨processSecret_whitespace_false _ _, fun fetch s => processSecret_whitespace_false fetch s⟩

/-- Claim C5 counterexample: the value sk-ant-abc123 has thirteen
characters, so the display reports 13 and not 14. -/
theorem anthropic_example_reports_13 :
    validateDisplay ("anthropic-api-key") ("sk-ant-abc123") =
        "sk-ant-****... 13 chars OK" ∧
    ("sk-ant-abc123" : String).length = 13 ∧
    ("sk-ant-abc123" : String).length ≠ 14 := by
  refine ⟨by decide, by decide, by decide⟩

/-- Claim C5 (amended): an anthropic-api-key value is classified valid
exactly when it starts with the literal sk-ant- ; the value sk-ant-abc123
is classified valid with length reported 13. -/
theorem anthropic_key_valid_iff (value : String) :
    (validateDisplay ("anthropic-api-key") value =
        ("sk-ant-****... " ++ (toString value.length ++ " chars OK")) ↔
      pyStartsWith value ("sk-ant-") = true) ∧
    validateDisplay ("anthropic-api-key") ("sk-ant-abc123") =
      "sk-ant-****... 13 chars OK" := by
  refine ⟨?_, by decide⟩
  have hd : validateDisplay ("anthropic-api-key") value =
      (if pyStartsWith value ("sk-ant-") then
        "sk-ant-****... " ++ (toString value.length ++ " chars OK")
       else "INVALID FORMAT! Should start with \x27sk-ant-\x27") := rfl
  rw [hd]
  by_cases h : pyStartsWith value ("sk-ant-") = true
  · rw [if_pos h]
    exact ⟨fun _ => h, fun _ => rfl⟩
  · rw [if_neg h]
    exact ⟨fun he => absurd he.symm (skOk_ne_invalid value.length),
           fun hh => absurd hh h⟩

/-- Claim C6 counterexample: the spec example value has 62 characters, so
the token-encryption-key rule classifies it invalid, reporting 62. -/
theorem hex_example_62_invalid :
    ("abcdef0123456789abcdef0123456789abcdef0123456789abcdef01234567" : String).length
        = 62 ∧
    validateDisplay ("token-encryption-key")
        ("abcdef0123456789abcdef0123456789abcdef0123456789abcdef01234567") =
      "INVALID! Need 64 hex chars, got 62" := by
  refine ⟨by decide, by decide⟩

/-- Claim C6 (amended): a token-encryption-key value is classified valid
exactly when it has length 64 and consists of hex digits; the spec example
value has 62 characters and is classified invalid, reporting 62. -/
theorem token_key_valid_iff (value : String) :
    (validateDisplay ("token-encryption-key") value = "****... (64 hex chars) OK" ↔
      (value.length = 64 ∧ value.data.all isHexDigitChar = true)) ∧
    validateDisplay ("token-encryption-key")
        ("abcdef0123456789abcdef0123456789abcdef0123456789abcdef01234567") =
      "INVALID! Need 64 hex chars, got 62" := by
  refine ⟨?_, by decide⟩
  have hd : validateDisplay ("token-encryption-key") value =
      (if value.length == 64 && matchesHex64 value then "****... (64 hex chars) OK"
       else "INVALID! Need 64 hex chars, got " ++ toString value.length) := rfl
  have hlen : value.length = value.data.length := rfl
  have hcond : (value.length == 64 && matchesHex64 value) = true ↔
      (value.length = 64 ∧ value.data.all isHexDigitChar = true) := by
    constructor
    · intro hc
      rw [Bool.and_eq_true] at hc
      obtain ⟨h1, h2⟩ := hc
      have hl : value.length = 64 := by simpa using h1
      refine ⟨hl, ?_⟩
      rw [matchesHex64, Bool.or_eq_true] at h2
      rcases h2 with h2 | h2
      · rw [Bool.and_eq_true] at h2
        exact h2.2
      · rw [Bool.and_eq_true, Bool.and_eq_true] at h2
        have h65 : value.data.length = 65 := by simpa using h2.1.1
        rw [← hlen, hl] at h65
        exact absurd h65 (by decide)
    · intro hc
      obtain ⟨h1, h2⟩ := hc
      have hl : value.data.length = 64 := by rw [← hlen]; exact h1
      simp [matchesHex64, hl, h2, h1]
  rw [hd]
  by_cases h : (value.length == 64 && matchesHex64 value) = true
  · rw [if_pos h]
    exact ⟨fun _ => hcond.mp h, fun _ => rfl⟩
  · rw [if_neg h]
    exact ⟨fun he => absurd he (invalidHex_ne_ok value.length),
           fun hr => absurd (hcond.mpr hr) h⟩

set_option maxRecDepth 8192 in
/-- Claim C7: an encryption-key value is classified valid exactly when it
base64-decodes to exactly 32 bytes; a successful decode of the wrong size
gives the wrong-size message with the actual byte count, distinct from the
decode-failure message; and a concrete value decoding to 31 bytes reports
31. -/
theorem encryption_key_valid_iff (value : String) :
    (validateDisplay ("encryption-key") value = "****... (base64, 32 bytes) OK" ↔
      (∃ d, b64decode value = some d ∧ d.length = 32)) ∧
    (∀ d, b64decode value = some d → d.length ≠ 32 →
      (validateDisplay ("encryption-key") value =
          ("WRONG SIZE! " ++ (toString d.length ++ " bytes (need 32)")) ∧
       validateDisplay ("encryption-key") value ≠ "INVALID BASE64!")) ∧
    (b64decode value = none →
      validateDisplay ("encryption-key") value = "INVALID BASE64!") ∧
    validateDisplay ("encryption-key")
        ("QUFBQUFBQUFBQUFBQUFBQUFBQUFBQUFBQUFBQUFBQQ==") =
      "WRONG SIZE! 31 bytes (need 32)" := by
  have hd : validateDisplay ("encryption-key") value =
      (match b64decode value with
       | some decoded =>
         if decoded.length = 32 then "****... (base64, 32 bytes) OK"
         else "WRONG SIZE! " ++ (toString decoded.length ++ " bytes (need 32)")
       | none => "INVALID BASE64!") := rfl
  refine ⟨?_, ?_, ?_, by decide⟩
  · rw [hd]
    cases hb : b64decode value with
    | none =>
      constructor
      · intro he
        exact absurd he (by decide)
      · rintro ⟨d, hd', _⟩
        exact Option.noConfusion hd'
    | some d =>
      show (if d.length = 32 then "****... (base64, 32 bytes) OK"
            else "WRONG SIZE! " ++ (toString d.length ++ " bytes (need 32)")) =
          "****... (base64, 32 bytes) OK" ↔
        ∃ e, some d = some e ∧ e.length = 32
      by_cases hl : d.length = 32
      · rw [if_pos hl]
        exact ⟨fun _ => ⟨d, rfl, hl⟩, fun _ => rfl⟩
      · rw [if_neg hl]
        constructor
        · intro he
          exact absurd he (wrongSize_ne_ok d.length)
        · rintro ⟨e, he, hel⟩
          injection he with he'
          rw [← he'] at hel
          exact absurd hel hl
  · intro d hds hdl
    rw [hd, hds]
    show (if d.length = 32 then "****... (base64, 32 bytes) OK"
          else "WRONG SIZE! " ++ (toString d.length ++ " bytes (need 32)")) =
          ("WRONG SIZE! " ++ (toString d.length ++ " bytes (need 32)")) ∧
      (if d.length = 32 then "****... (base64, 32 bytes) OK"
       else "WRONG SIZE! " ++ (toString d.length ++ " bytes (need 32)")) ≠
        "INVALID BASE64!"
    rw [if_neg hdl]
    exact ⟨rfl, wrongSize_ne_invalidB64 d.length⟩
  · intro hn
    rw [hd, hn]

/-- Claim C8: a successful fetch records the secret as Found and keeps it
out of the missing set whatever the value is, and two runs whose fetches
succeed and fail on the same identifiers have the same found set, missing
set and final verdict, the values affecting only the display messages. -/
theorem found_independent_of_value (fetch fetch2 : String → Option String)
    (hdom : ∀ s ∈ SECRETS, (fetch s).isSome = (fetch2 s).isSome)
    (s v : String) (hs : fetch s = some v) :
    (processSecret fetch s).status = "Found" ∧
    s ∉ missing_secrets fetch ∧
    found_secrets fetch = found_secrets fetch2 ∧
    missing_secrets fetch = missing_secrets fetch2 ∧
    finalMessage fetch = finalMessage fetch2 := by
  have hfound : found_secrets fetch = found_secrets fetch2 :=
    List.filter_congr (fun x hx => by rw [hdom x hx])
  have hmiss : missing_secrets fetch = missing_secrets fetch2 := by
    apply List.filter_congr
    intro x hx
    have hx2 := hdom x hx
    cases h1 : fetch x <;> cases h2 : fetch2 x <;>
      simp [h1, h2] at hx2 ⊢
  refine ⟨?_, ?_, hfound, hmiss, ?_⟩
  · unfold processSecret
    rw [hs]
  · intro hmem
    rw [missing_secrets, List.mem_filter, hs] at hmem
    simp at hmem
  · unfold finalMessage verdictPass
    rw [hfound, hmiss]

/-- Claim C8 witness: a concrete pair of runs differing only in the
anthropic key value, one well-formed and one format-invalid. -/
theorem found_independent_witness :
    (processSecret goodFetch ("anthropic-api-key")).status = "Found" ∧
    "anthropic-api-key" ∉ missing_secrets goodFetch ∧
    found_secrets goodFetch = found_secrets badFetch ∧
    missing_secrets goodFetch = missing_secrets badFetch ∧
    finalMessage goodFetch = finalMessage badFetch :=
  found_independent_of_value goodFetch badFetch (by decide)
    ("anthropic-api-key") ("sk-ant-abc123") (by decide)

/-- Claim C9: a failed fetch records that identifier Missing with the Not
found display, puts it in the missing set, leaves the run producing one
record per identifier, and falsifies the one critical check that depends
solely on it (has_jwt_secret when the identifier is jwt-secret). -/
theorem fetch_failure_marks_missing (fetch : String → Option String)
    (X : String) (hmem : X ∈ SECRETS) (hfail : fetch X = none) :
    (processSecret fetch X).status = "Missing" ∧
    (processSecret fetch X).display = "Not found" ∧
    X ∈ missing_secrets fetch ∧
    (results fetch).length = SECRETS.length ∧
    (X = "jwt-secret" → has_jwt_secret (found_secrets fetch) = false) := by
  refine ⟨?_, ?_, ?_, ?_, ?_⟩
  · unfold processSecret
    rw [hfail]
  · unfold processSecret
    rw [hfail]
  · rw [missing_secrets, List.mem_filter]
    exact ⟨hmem, by rw [hfail]; rfl⟩
  · unfold results
    rw [List.length_map]
  · intro hX
    subst hX
    have hnm : ¬ ((found_secrets fetch).contains ("jwt-secret") = true) := by
      intro hc
      have := (contains_iff _ _).mp hc
      rw [found_secrets, List.mem_filter, hfail] at this
      simp at this
    unfold has_jwt_secret
    exact Bool.eq_false_iff.mpr hnm

/-- Claim C9 witness: a concrete run in which only the jwt-secret fetch
fails. -/
theorem fetch_failure_witness :
    (processSecret failFetch ("jwt-secret")).status = "Missing" ∧
    (processSecret failFetch ("jwt-secret")).display = "Not found" ∧
    "jwt-secret" ∈ missing_secrets failFetch ∧
    (results failFetch).length = SECRETS.length ∧
    ("jwt-secret" = "jwt-secret" →
      has_jwt_secret (found_secrets failFetch) = false) :=
  fetch_failure_marks_missing failFetch ("jwt-secret") (by decide) (by decide)

/-- Claim C10: for a successful fetch, the recorded length and the value
every validation rule sees are those of the stripped stdout, so a run whose
store holds the value with surrounding whitespace produces the same record
as a run whose store holds the stripped value. -/
theorem validation_on_stripped (fetch fetch2 : String → Option String)
    (s stdout : String) (h1 : fetch s = some stdout)
    (h2 : fetch2 s = some (pyStrip stdout)) :
    (processSecret fetch s).length = (pyStrip stdout).length ∧
    (processSecret fetch s).display = validateDisplay s (pyStrip stdout) ∧
    processSecret fetch s = processSecret fetch2 s := by
  refine ⟨?_, ?_, ?_⟩
  · unfold processSecret
    rw [h1]
  · unfold processSecret
    rw [h1]
  · unfold processSecret
    rw [h1, h2]
    simp only [pyStrip_idem]

/-- Claim C10 witness: a concrete fetched value with surrounding
whitespace. -/
theorem validation_on_stripped_witness :
    (processSecret (fun _ => some ("  sk-ant-topsecret \n")) ("anthropic-api-key")).length =
        (pyStrip ("  sk-ant-topsecret \n")).length ∧
    (processSecret (fun _ => some ("  sk-ant-topsecret \n")) ("anthropic-api-key")).display =
        validateDisplay ("anthropic-api-key") (pyStrip ("  sk-ant-topsecret \n")) ∧
    processSecret (fun _ => some ("  sk-ant-topsecret \n")) ("anthropic-api-key") =
      processSecret (fun _ => some (pyStrip ("  sk-ant-topsecret \n")))
        ("anthropic-api-key") :=
  validation_on_stripped (fun _ => some ("  sk-ant-topsecret \n"))
    (fun _ => some (pyStrip ("  sk-ant-topsecret \n")))
    ("anthropic-api-key") ("  sk-ant-topsecret \n") rfl rfl

end CheckSecrets
